import Mathlib

/-!
Shallow embedding of `crates/treereduce/src/versioned.rs`: the versioned
value container `Versioned<T>`, its constructors, derivation operations and
version predicates.

The `version` field is a Rust `usize` (assumed 64-bit). Its addition is
modelled two ways, mirroring the two compilation modes of Rust's `+`:
  * `usizeAdd`: wrapping addition modulo `2 ^ 64` (overflow checks off);
  * `checkedAdd`: `Option`-valued addition where `none` models the
    overflow panic of builds with overflow checks on (debug builds).
-/

namespace Treereduce

/-- `usize::MAX` on a 64-bit target. -/
def USIZE_MAX : Nat := 2 ^ 64 - 1

/-- The modulus of 64-bit `usize` arithmetic, `2 ^ 64`. -/
def USIZE_MOD : Nat := 2 ^ 64

/-- Rust `a + b` on `usize` with overflow checks off: wraps modulo `2 ^ 64`. -/
def usizeAdd (a b : Nat) : Nat := (a + b) % USIZE_MOD

/-- Rust `a + b` on `usize` with overflow checks on: `none` models the
overflow panic. -/
def checkedAdd (a b : Nat) : Option Nat :=
  if a + b < USIZE_MOD then some (a + b) else none

/-- `struct Versioned<T> { value: T, version: usize }` from `versioned.rs`. -/
structure Versioned (T : Type) where
  value : T
  version : Nat
deriving DecidableEq

namespace Versioned

/-- `pub fn extract(self) -> T { self.value }` -/
def extract {T : Type} (c : Versioned T) : T := c.value

/-- `pub fn get(&self) -> &T { &self.value }` (the borrowed payload, as a value). -/
def get {T : Type} (c : Versioned T) : T := c.value

/-- `pub fn new(value: T) -> Self { Versioned { value, version: 0 } }` -/
def new {T : Type} (value : T) : Versioned T := ⟨value, 0⟩

/-- `pub fn inc(self) -> Self`: same payload, `version + 1` (wrapping
semantics of the unchecked build). -/
def inc {T : Type} (c : Versioned T) : Versioned T :=
  ⟨c.value, usizeAdd c.version 1⟩

/-- `inc` under overflow-checked arithmetic: `none` models the panic of
`self.version + 1` overflowing in a debug build. -/
def incChecked {T : Type} (c : Versioned T) : Option (Versioned T) :=
  (checkedAdd c.version 1).map fun v => ⟨c.value, v⟩

/-- `derive(Clone)` on `Versioned<T>`: field-wise clone. Payloads are pure
values here, so `T::clone` is the value itself. -/
def clone {T : Type} (c : Versioned T) : Versioned T := ⟨c.value, c.version⟩

/-- `pub fn mutate_clone<F>(&self, f: F) -> Self`:
`let mut r = (*self).clone(); r.value = f(r.value); let ret = r.inc(); ret`
(wrapping semantics; the `debug_assert!` is compiled out). -/
def mutate_clone {T : Type} (c : Versioned T) (f : T → T) : Versioned T :=
  inc ⟨f (clone c).value, (clone c).version⟩

/-- `pub fn old_version(&self, other: &Versioned<T>) -> bool`:
`self.version + 1 == other.version` (wrapping semantics). -/
def old_version {T : Type} (c other : Versioned T) : Bool :=
  usizeAdd c.version 1 == other.version

/-- `fn _same_version(&self, other: &Versioned<T>) -> bool`:
`self.version == other.version`. -/
def same_version {T : Type} (c other : Versioned T) : Bool :=
  c.version == other.version

/-- `mutate_clone` under overflow-checked arithmetic, including the
`debug_assert!(self.old_version(&ret))`: `none` models either the overflow
panic inside `inc` or the assertion firing. -/
def mutate_clone_checked {T : Type} (c : Versioned T) (f : T → T) :
    Option (Versioned T) :=
  (incChecked ⟨f (clone c).value, (clone c).version⟩).bind fun ret =>
    (checkedAdd c.version 1).bind fun s =>
      if s == ret.version then some ret else none

/-- The full effect of the method call `self.mutate_clone(f)` on its `&self`
receiver: the receiver is only borrowed, so the state after the call pairs
the unchanged receiver with the returned container. -/
def mutate_clone_call {T : Type} (c : Versioned T) (f : T → T) :
    Versioned T × Versioned T :=
  (c, mutate_clone c f)

end Versioned

/-- Below `usize::MAX`, wrapping increment agrees with the mathematical one. -/
theorem usizeAdd_one_eq (a : Nat) (h : a < USIZE_MAX) : usizeAdd a 1 = a + 1 := by
  have hm : a + 1 < USIZE_MOD := by
    simp only [USIZE_MAX] at h
    simp only [USIZE_MOD]
    omega
  simp [usizeAdd, Nat.mod_eq_of_lt hm]

/-- Wrapping increment never fixes a point: `(a + 1) % 2 ^ 64 ≠ a`. -/
theorem usizeAdd_one_ne (a : Nat) : usizeAdd a 1 ≠ a := by
  simp only [usizeAdd, USIZE_MOD]
  intro hfix
  rcases Nat.lt_or_ge (a + 1) (2 ^ 64) with hlt | hge
  · rw [Nat.mod_eq_of_lt hlt] at hfix
    omega
  · have hmod : (a + 1) % 2 ^ 64 < 2 ^ 64 := Nat.mod_lt _ (by positivity)
    omega

/-- Below `usize::MAX`, the checked increment succeeds. -/
theorem checkedAdd_one_eq (a : Nat) (h : a < USIZE_MAX) :
    checkedAdd a 1 = some (a + 1) := by
  have hm : a + 1 < USIZE_MOD := by
    simp only [USIZE_MAX] at h
    simp only [USIZE_MOD]
    omega
  simp [checkedAdd, hm]

/-- Claim C1: `mutate_clone` does not consume or modify its receiver — after
the call the original container is unchanged and usable — while the returned
container's payload is `f` of the original payload and its version is the
original version plus one. -/
theorem mutate_clone_nonconsuming {T : Type} (c : Versioned T) (f : T → T)
    (h : c.version < USIZE_MAX) :
    (Versioned.mutate_clone_call c f).1 = c ∧
    (Versioned.mutate_clone_call c f).2.value = f c.value ∧
    (Versioned.mutate_clone_call c f).2.version = c.version + 1 := by
  refine ⟨rfl, rfl, ?_⟩
  simp [Versioned.mutate_clone_call, Versioned.mutate_clone, Versioned.clone,
    Versioned.inc, usizeAdd_one_eq c.version h]

/-- Witness for C1 at the container `new 5` and the transform `x + 1`. -/
theorem mutate_clone_nonconsuming_witness :
    (Versioned.new (5 : Nat)).version < USIZE_MAX ∧
    ((Versioned.mutate_clone_call (Versioned.new (5 : Nat)) (· + 1)).1 =
        Versioned.new 5 ∧
      (Versioned.mutate_clone_call (Versioned.new (5 : Nat)) (· + 1)).2.value =
        (5 : Nat) + 1 ∧
      (Versioned.mutate_clone_call (Versioned.new (5 : Nat)) (· + 1)).2.version =
        (Versioned.new (5 : Nat)).version + 1) :=
  ⟨by decide, mutate_clone_nonconsuming (Versioned.new 5) (· + 1) (by decide)⟩

/-- Claim C2: `old_version a b` is true exactly when `a`'s version plus one
equals `b`'s version. -/
theorem old_version_iff {T : Type} (a b : Versioned T)
    (h : a.version < USIZE_MAX) :
    Versioned.old_version a b = true ↔ a.version + 1 = b.version := by
  simp [Versioned.old_version, usizeAdd_one_eq a.version h]

/-- Witness for C2 at `new 5` and its increment. -/
theorem old_version_iff_witness :
    (Versioned.new (5 : Nat)).version < USIZE_MAX ∧
    (Versioned.old_version (Versioned.new (5 : Nat))
        (Versioned.inc (Versioned.new 5)) = true ↔
      (Versioned.new (5 : Nat)).version + 1 =
        (Versioned.inc (Versioned.new (5 : Nat))).version) :=
  ⟨by decide, old_version_iff (Versioned.new 5) (Versioned.inc (Versioned.new 5))
    (by decide)⟩

/-- Counterexample to claim C3 at version `usize::MAX`: the checked increment
fails (the overflow panic of builds with overflow checks), and the wrapping
increment yields version 0, not `USIZE_MAX + 1`. -/
theorem inc_overflow_at_max :
    Versioned.incChecked (Versioned.mk () USIZE_MAX) =
      (none : Option (Versioned Unit)) ∧
    (Versioned.inc (Versioned.mk () USIZE_MAX)).version = 0 ∧
    (Versioned.inc (Versioned.mk () USIZE_MAX)).version ≠ USIZE_MAX + 1 := by
  refine ⟨?_, ?_, ?_⟩ <;> decide

/-- Claim C3 (amended): for every container whose version is below
`usize::MAX`, the increments of `inc` and `mutate_clone` succeed even under
overflow-checked arithmetic and produce exactly version + 1; at `usize::MAX`
the unguarded increment overflows instead (see `inc_overflow_at_max`). -/
theorem version_increment_total_below_max {T : Type} (c : Versioned T)
    (f : T → T) (h : c.version < USIZE_MAX) :
    Versioned.incChecked c = some (Versioned.inc c) ∧
    (Versioned.inc c).version = c.version + 1 ∧
    Versioned.mutate_clone_checked c f = some (Versioned.mutate_clone c f) ∧
    (Versioned.mutate_clone c f).version = c.version + 1 := by
  have hc := checkedAdd_one_eq c.version h
  have hu := usizeAdd_one_eq c.version h
  refine ⟨?_, ?_, ?_, ?_⟩
  · simp [Versioned.incChecked, hc, Versioned.inc, hu]
  · simp [Versioned.inc, hu]
  · simp [Versioned.mutate_clone_checked, Versioned.incChecked, Versioned.clone,
      hc, Versioned.mutate_clone, Versioned.inc, hu]
  · simp [Versioned.mutate_clone, Versioned.clone, Versioned.inc, hu]

/-- Witness for the amended C3 at `new 5` and the transform `x + 1`. -/
theorem version_increment_total_below_max_witness :
    (Versioned.new (5 : Nat)).version < USIZE_MAX ∧
    (Versioned.incChecked (Versioned.new (5 : Nat)) =
        some (Versioned.inc (Versioned.new 5)) ∧
      (Versioned.inc (Versioned.new (5 : Nat))).version =
        (Versioned.new (5 : Nat)).version + 1 ∧
      Versioned.mutate_clone_checked (Versioned.new (5 : Nat)) (· + 1) =
        some (Versioned.mutate_clone (Versioned.new 5) (· + 1)) ∧
      (Versioned.mutate_clone (Versioned.new (5 : Nat)) (· + 1)).version =
        (Versioned.new (5 : Nat)).version + 1) :=
  ⟨by decide, version_increment_total_below_max (Versioned.new 5) (· + 1)
    (by decide)⟩

/-- Claim C4: `new v` has version 0 and `extract (new v) = v`. -/
theorem new_version_zero_extract {T : Type} (v : T) :
    (Versioned.new v).version = 0 ∧ Versioned.extract (Versioned.new v) = v :=
  ⟨rfl, rfl⟩

/-- Claim C5: `inc` keeps the payload and raises the version by exactly one. -/
theorem inc_same_payload_succ_version {T : Type} (c : Versioned T)
    (h : c.version < USIZE_MAX) :
    (Versioned.inc c).value = c.value ∧
    (Versioned.inc c).version = c.version + 1 := by
  refine ⟨rfl, ?_⟩
  simp [Versioned.inc, usizeAdd_one_eq c.version h]

/-- Witness for C5 at `new 7`. -/
theorem inc_same_payload_succ_version_witness :
    (Versioned.new (7 : Nat)).version < USIZE_MAX ∧
    ((Versioned.inc (Versioned.new (7 : Nat))).value =
        (Versioned.new (7 : Nat)).value ∧
      (Versioned.inc (Versioned.new (7 : Nat))).version =
        (Versioned.new (7 : Nat)).version + 1) :=
  ⟨by decide, inc_same_payload_succ_version (Versioned.new 7) (by decide)⟩

/-- Claim C6: a container produced by `mutate_clone` always satisfies the
`old_version` successor check against its source, with no side condition:
both sides use the same wrapping arithmetic. -/
theorem old_version_mutate_clone {T : Type} (c : Versioned T) (f : T → T) :
    Versioned.old_version c (Versioned.mutate_clone c f) = true := by
  simp [Versioned.old_version, Versioned.mutate_clone, Versioned.clone,
    Versioned.inc]

/-- Claim C7: two independent `mutate_clone` calls on the same container each
yield version + 1, so `same_version` holds between the two results even when
the two transforms produce different payloads. -/
theorem mutate_clone_twice_same_version {T : Type} (c : Versioned T)
    (f g : T → T) (h : c.version < USIZE_MAX) :
    (Versioned.mutate_clone c f).version = c.version + 1 ∧
    (Versioned.mutate_clone c g).version = c.version + 1 ∧
    Versioned.same_version (Versioned.mutate_clone c f)
      (Versioned.mutate_clone c g) = true := by
  have hu := usizeAdd_one_eq c.version h
  refine ⟨?_, ?_, ?_⟩
  · simp [Versioned.mutate_clone, Versioned.clone, Versioned.inc, hu]
  · simp [Versioned.mutate_clone, Versioned.clone, Versioned.inc, hu]
  · simp [Versioned.same_version, Versioned.mutate_clone, Versioned.clone,
      Versioned.inc]

/-- Witness for C7 at `new 5` with transforms `x + 1` and `x * 2`, whose
results carry different payloads (6 and 10) but the same version. -/
theorem mutate_clone_twice_same_version_witness :
    (Versioned.new (5 : Nat)).version < USIZE_MAX ∧
    (Versioned.mutate_clone (Versioned.new (5 : Nat)) (· + 1)).value ≠
      (Versioned.mutate_clone (Versioned.new (5 : Nat)) (· * 2)).value ∧
    ((Versioned.mutate_clone (Versioned.new (5 : Nat)) (· + 1)).version =
        (Versioned.new (5 : Nat)).version + 1 ∧
      (Versioned.mutate_clone (Versioned.new (5 : Nat)) (· * 2)).version =
        (Versioned.new (5 : Nat)).version + 1 ∧
      Versioned.same_version
        (Versioned.mutate_clone (Versioned.new (5 : Nat)) (· + 1))
        (Versioned.mutate_clone (Versioned.new (5 : Nat)) (· * 2)) = true) :=
  ⟨by decide, by decide,
    mutate_clone_twice_same_version (Versioned.new 5) (· + 1) (· * 2)
      (by decide)⟩

/-- Claim C8: the `debug_assert!(self.old_version(&ret))` inside
`mutate_clone` is valid: the returned version is exactly one greater than the
receiver's version at call time, the asserted expression evaluates to true,
and the fully checked debug-build run completes without the assertion firing. -/
theorem mutate_clone_assert_valid {T : Type} (c : Versioned T) (f : T → T)
    (h : c.version < USIZE_MAX) :
    (Versioned.mutate_clone c f).version = c.version + 1 ∧
    Versioned.old_version c (Versioned.mutate_clone c f) = true ∧
    Versioned.mutate_clone_checked c f = some (Versioned.mutate_clone c f) := by
  have hu := usizeAdd_one_eq c.version h
  have hc := checkedAdd_one_eq c.version h
  refine ⟨?_, ?_, ?_⟩
  · simp [Versioned.mutate_clone, Versioned.clone, Versioned.inc, hu]
  · simp [Versioned.old_version, Versioned.mutate_clone, Versioned.clone,
      Versioned.inc]
  · simp [Versioned.mutate_clone_checked, Versioned.incChecked, Versioned.clone,
      hc, Versioned.mutate_clone, Versioned.inc, hu]

/-- Witness for C8 at `new 5` and the transform `x + 1`. -/
theorem mutate_clone_assert_valid_witness :
    (Versioned.new (5 : Nat)).version < USIZE_MAX ∧
    ((Versioned.mutate_clone (Versioned.new (5 : Nat)) (· + 1)).version =
        (Versioned.new (5 : Nat)).version + 1 ∧
      Versioned.old_version (Versioned.new (5 : Nat))
        (Versioned.mutate_clone (Versioned.new 5) (· + 1)) = true ∧
      Versioned.mutate_clone_checked (Versioned.new (5 : Nat)) (· + 1) =
        some (Versioned.mutate_clone (Versioned.new 5) (· + 1))) :=
  ⟨by decide, mutate_clone_assert_valid (Versioned.new 5) (· + 1) (by decide)⟩

/-- Claim C9: the successor predicate is irreflexive — no container is its
own direct successor, since even wrapping `version + 1` never equals
`version`. -/
theorem old_version_irrefl {T : Type} (c : Versioned T) :
    Versioned.old_version c c = false := by
  simp only [Versioned.old_version]
  exact beq_eq_false_iff_ne.mpr (usizeAdd_one_ne c.version)

/-- Claim C10: the derived `Clone` of the container preserves payload and
version exactly, so a cloned handle shares its source's version and is never
its direct successor: duplicating the handle is not a derivation step. -/
theorem clone_preserves_version {T : Type} (c : Versioned T) :
    (Versioned.clone c).value = c.value ∧
    (Versioned.clone c).version = c.version ∧
    Versioned.same_version c (Versioned.clone c) = true ∧
    Versioned.old_version c (Versioned.clone c) = false := by
  refine ⟨rfl, rfl, ?_, ?_⟩
  · simp [Versioned.same_version, Versioned.clone]
  · simp only [Versioned.old_version, Versioned.clone]
    exact beq_eq_false_iff_ne.mpr (usizeAdd_one_ne c.version)

end Treereduce
